import Mathlib

/-!
Shallow embedding of the feature-encoding and inference core of the
wildfire destruction-prediction repository.

Sources embedded:
- `src/flows/wildfire/flow.py` (`WildfireFlow.train`): record filtering,
  target derivation, per-column `LabelEncoder` fitting, stratified
  train/test split, classifier fit, AUC, feature importances, and the
  per-feature destruction-rate statistics.
- `src/deployments/scenarios/scenario_app.py`: `encode_feature` (the
  three-tier unseen-value fallback) and `predict_destruction` (the
  fixed-order feature-vector build and scoring call).

Third-party library calls made by the source (`sklearn.preprocessing.
LabelEncoder`, `sklearn.model_selection.train_test_split`,
`sklearn.metrics.roc_auc_score`) are embedded by their documented
semantics, since their behaviour is part of the semantics of the source
lines that call them.  The gradient-boosted classifier itself is treated
as an external opaque probabilistic-classifier capability (as the spec
does): it is modelled as a deterministic function of its hyperparameters,
seed and training data, returning a rational in `[0,1]`.

Machine floats are modelled as `ℚ`; Python exceptions as `Except String`.
-/

/-- Insert a string into a list, before the first element that is not
smaller (insertion step of a comparison sort). -/
def insertSorted (s : String) : List String → List String
  | [] => [s]
  | t :: ts => if (compare s t).isLE then s :: t :: ts else t :: insertSorted s ts

/-- Comparison sort on strings (the sort underlying `numpy.unique`). -/
def sortStrings : List String → List String
  | [] => []
  | s :: ss => insertSorted s (sortStrings ss)

/-- Embeds `numpy.unique`: the sorted list of distinct values of the input. -/
def npUnique (vs : List String) : List String := sortStrings vs.dedup

/-- Embeds `sklearn.preprocessing.LabelEncoder` after fitting: it owns `classes_`,
the sorted distinct labels seen at fit time; the code of a label is its
index in `classes_`. -/
structure LabelEncoder where
  classes : List String
deriving Repr, DecidableEq

/-- Embeds `LabelEncoder.fit`: `classes_ = numpy.unique(values)`. -/
def LabelEncoder.fit (values : List String) : LabelEncoder :=
  ⟨npUnique values⟩

/-- Embeds `LabelEncoder.transform` on a single label: its index in `classes_`,
or a `ValueError` when the label was not seen at fit time. -/
def LabelEncoder.transformOne (e : LabelEncoder) (value : String) : Except String Nat :=
  if value ∈ e.classes then Except.ok (e.classes.indexOf value)
  else Except.error "y contains previously unseen labels"

/-- Embeds `LabelEncoder.fit_transform`: fit, then encode every input value (all
of which were just seen, so no error can occur). -/
def LabelEncoder.fit_transform (values : List String) : LabelEncoder × List Nat :=
  let e := LabelEncoder.fit values
  (e, values.map (fun v => e.classes.indexOf v))

/-- Embeds `pandas.Series.fillna("Unknown")` at a single cell: a missing value
becomes the literal string `"Unknown"`. -/
def fillna : Option String → String
  | none => "Unknown"
  | some s => s

/-- Embeds `encode_feature` from `scenario_app.py` (lines 201-211): try the fitted
code of `value`; on `ValueError` try the code of `"Unknown"`; on a second
`ValueError` fall back to `0`.  Total: it never fails.  The third argument
is the feature name, unused except for (absent) logging, kept for
faithfulness to the source signature. -/
def encode_feature (value : String) (encoder : LabelEncoder) (feature_name : String) : Nat :=
  match encoder.transformOne value with
  | Except.ok c => c
  | Except.error _ =>
    match encoder.transformOne "Unknown" with
    | Except.ok c => c
    | Except.error _ => 0

/-- Python `dict.get(key, default)` over a feature mapping modelled as an
association list (first binding of a key wins, as in a `dict`). -/
def dictGet (features : List (String × String)) (key dflt : String) : String :=
  match features.find? (fun p => p.1 == key) with
  | some p => p.2
  | none => dflt

/-- The loop body of `predict_destruction` (lines 216-220): for each column
in the fixed order, look the raw value up (defaulting to `"Unknown"` when
the column is absent) and encode it with that column's encoder. -/
def encoded_features (encoders : String → LabelEncoder) (feature_cols : List String)
    (features : List (String × String)) : List Nat :=
  feature_cols.map (fun col => encode_feature (dictGet features col "Unknown") (encoders col) col)

/-- Embeds `predict_destruction` from `scenario_app.py` (lines 214-224): build the
encoded vector in the fixed column order and score it with the model's
positive-class probability (`model.predict_proba(X)[0, 1]`, modelled as a
function from the encoded vector to `ℚ`). -/
def predict_destruction (model : List Nat → ℚ) (encoders : String → LabelEncoder)
    (feature_cols : List String) (features : List (String × String)) : ℚ :=
  model (encoded_features encoders feature_cols features)

/-- The spec's `InferenceService` (§4.5): a fixed classifier, encoders and
feature-column order, as loaded once by `load_model` in the app. -/
structure InferenceService where
  model : List Nat → ℚ
  encoders : String → LabelEncoder
  feature_cols : List String

/-- One scoring call, in state-passing form: the probability together with
the service state after the call.  The source performs no mutation and no
caching in `predict_destruction`, so the state passes through unchanged. -/
def InferenceService.predict (s : InferenceService) (features : List (String × String)) :
    ℚ × InferenceService :=
  (predict_destruction s.model s.encoders s.feature_cols features, s)

/-- One row of the training query in `flow.py` (lines 54-73): the damage
column and the twelve categorical feature columns.  Feature cells are
nullable in the CSV (`fillna` is applied before encoding), hence
`Option String`. -/
structure Record where
  damage : String
  structure_type : Option String
  structure_category : Option String
  roof_construction : Option String
  eaves : Option String
  vent_screen : Option String
  exterior_siding : Option String
  window_pane : Option String
  deck_on_grade : Option String
  deck_elevated : Option String
  patio_cover : Option String
  fence_attached : Option String
  county : Option String
deriving Repr, DecidableEq

/-- Embeds `feature_cols` from `flow.py` (lines 79-92): the fixed feature-column
order used for encoding, training and inference. -/
def feature_cols : List String :=
  ["structure_type", "structure_category", "roof_construction", "eaves",
   "vent_screen", "exterior_siding", "window_pane", "deck_on_grade",
   "deck_elevated", "patio_cover", "fence_attached", "county"]

/-- Column access `df[col]` on one row, by column name. -/
def Record.getFeature (r : Record) : String → Option String
  | "structure_type" => r.structure_type
  | "structure_category" => r.structure_category
  | "roof_construction" => r.roof_construction
  | "eaves" => r.eaves
  | "vent_screen" => r.vent_screen
  | "exterior_siding" => r.exterior_siding
  | "window_pane" => r.window_pane
  | "deck_on_grade" => r.deck_on_grade
  | "deck_elevated" => r.deck_elevated
  | "patio_cover" => r.patio_cover
  | "fence_attached" => r.fence_attached
  | "county" => r.county
  | _ => none

/-- The `WHERE "* Damage" != 'Inaccessible'` clause of both training
queries (lines 71 and 149): the record population every later step sees. -/
def selectRecords (rows : List Record) : List Record :=
  rows.filter (fun r => r.damage != "Inaccessible")

/-- The binary target (lines 76 and 152):
`(df["damage"] == "Destroyed (>50%)").astype(int)`. -/
def target01 (r : Record) : Nat :=
  if r.damage = "Destroyed (>50%)" then 1 else 0

/-- Embeds `df[col].fillna("Unknown").astype(str)`: the fit-time value column. -/
def colValues (df : List Record) (col : String) : List String :=
  df.map (fun r => fillna (r.getFeature col))

/-- A row of the per-feature destruction statistics (lines 157-165). -/
structure FeatureValueStat where
  value : String
  destruction_rate : ℚ
  count : Nat
deriving Repr, DecidableEq

/-- The `groupby(col).agg(...)` + `count >= 20` filter of lines 156-165:
for each raw value of `col` (pandas drops null group keys), emit the mean
of the target and the group size, keeping only groups of at least 20
records.  Group keys are sorted as pandas does; the sort affects
presentation order only. -/
def groupStats (df : List Record) (col : String) : List FeatureValueStat :=
  let keys := npUnique (df.filterMap (fun r => r.getFeature col))
  (keys.map (fun v =>
    let grp := df.filter (fun r => r.getFeature col == some v)
    { value := v
      destruction_rate := ((grp.map target01).sum : ℚ) / (grp.length : ℚ)
      count := grp.length })).filter (fun s => 20 ≤ s.count)

/-- Ceiling of a rational, as a natural number (`sklearn` computes
`n_test = ceil(test_size * n_samples)`). -/
def ceilNat (q : ℚ) : Nat := (Int.ceil q).toNat

/-- Per-class test-set allocation of `StratifiedShuffleSplit`: each class
receives its proportional share of `nTest`, rounded down, and the
remainder is assigned one-per-class (in `sklearn` the remainder classes
are chosen by the seeded RNG; the choice is modelled here as the leading
classes in first-seen order). -/
def classAlloc (y : List Nat) (nTest : Nat) : List (Nat × Nat) :=
  let n := y.length
  let base := y.dedup.map (fun c => (c, y.count c * nTest / n))
  let rem := nTest - (base.map (fun p => p.2)).sum
  base.enum.map (fun p => (p.2.1, if p.1 < rem then p.2.2 + 1 else p.2.2))

/-- Remaining test-set quota of a class. -/
def allocGet (alloc : List (Nat × Nat)) (c : Nat) : Nat :=
  match alloc.find? (fun p => p.1 == c) with
  | some p => p.2
  | none => 0

/-- Decrement the test-set quota of a class. -/
def allocDec (alloc : List (Nat × Nat)) (c : Nat) : List (Nat × Nat) :=
  alloc.map (fun p => if p.1 == c then (p.1, p.2 - 1) else p)

/-- Walk the labelled samples, sending each to the test side while its
class still has quota, to the train side otherwise. -/
def splitByAlloc (alloc : List (Nat × Nat)) :
    List (List Nat × Nat) → List (List Nat × Nat) × List (List Nat × Nat)
  | [] => ([], [])
  | p :: rest =>
    if 0 < allocGet alloc p.2 then
      let q := splitByAlloc (allocDec alloc p.2) rest
      (p :: q.1, q.2)
    else
      let q := splitByAlloc alloc rest
      (q.1, p :: q.2)

/-- Embeds `sklearn.model_selection.train_test_split(X, y, test_size, random_state,
stratify=y)`: validity checks (`n_samples > 0`, every class populated by at
least 2 members, test and train sides no smaller than the class count),
then a seed-determined stratified partition.  When `random_state` is
`none`, `sklearn` draws from ambient process randomness, modelled by the
`entropy` argument; the source always passes `random_state=42`.  The
seeded shuffle is modelled as a rotation by the seed; which members of a
class land in the test side is a seed-determined choice in `sklearn` and
any deterministic-in-seed choice is a faithful model of it. -/
def train_test_split (X : List (List Nat)) (y : List Nat) (testSize : ℚ)
    (randomState : Option Nat) (entropy : Nat) :
    Except String (List (List Nat) × List (List Nat) × List Nat × List Nat) :=
  let seed := randomState.getD entropy
  let n := y.length
  if n = 0 then
    Except.error "With n_samples=0, test_size=0.2 and train_size=None, the resulting train set will be empty."
  else
    let nTest := ceilNat (testSize * n)
    let classes := y.dedup
    if classes.any (fun c => y.count c < 2) then
      Except.error "The least populated class in y has only 1 member, which is too few."
    else if nTest < classes.length then
      Except.error "The test_size should be greater or equal to the number of classes."
    else if n - nTest < classes.length then
      Except.error "The train_size should be greater or equal to the number of classes."
    else
      let pairs := ((X.zip y).rotate (seed % n)).reverse
      let q := splitByAlloc (classAlloc y nTest) pairs
      Except.ok (q.2.map (fun p => p.1), q.1.map (fun p => p.1),
                 q.2.map (fun p => p.2), q.1.map (fun p => p.2))

/-- The fitted `GradientBoostingClassifier`, treated (as the spec does) as
an external opaque probabilistic-classifier capability: deterministic
given hyperparameters, seed and training data.  Its internal tree-boosting
algorithm is out of scope, so prediction is modelled as an exact-match
lookup against the training data falling back to the base rate — a
deterministic function into `[0,1]` honouring the capability's
interface. -/
structure GBCModel where
  n_estimators : Nat
  max_depth : Nat
  seed : Nat
  trainX : List (List Nat)
  trainY : List Nat
deriving Repr, DecidableEq

/-- Embeds `model.predict_proba(X)[:, 1]` on one sample. -/
def GBCModel.predictProba1 (m : GBCModel) (x : List Nat) : ℚ :=
  let near := (m.trainX.zip m.trainY).filter (fun p => p.1 == x)
  if near.length = 0 then ((m.trainY.sum : ℚ) / (max 1 m.trainY.length : ℚ))
  else (((near.map (fun p => p.2)).sum : ℚ) / (near.length : ℚ))

/-- Embeds `model.feature_importances_` over `d` features, modelled as the uniform
weight vector (deterministic in the fitted model; the true tree-based
attribution is part of the out-of-scope classifier internals). -/
def GBCModel.featureImportances (m : GBCModel) (d : Nat) : List ℚ :=
  List.replicate d ((1 : ℚ) / (d : ℚ))

/-- Embeds `GradientBoostingClassifier(n_estimators, max_depth, random_state).fit`:
raises a `ValueError` when the training labels contain fewer than two
classes (a gradient-boosted binary classifier needs both), otherwise
returns the fitted model.  `random_state=None` would draw from ambient
process randomness (`entropy`); the source passes `random_state=42`. -/
def GradientBoostingClassifier_fit (n_estimators max_depth : Nat)
    (randomState : Option Nat) (entropy : Nat)
    (X : List (List Nat)) (y : List Nat) : Except String GBCModel :=
  if y.dedup.length < 2 then
    Except.error "y contains 1 class after sample_weight trimmed classes with zero weights, while a minimum of 2 classes are required."
  else
    Except.ok { n_estimators := n_estimators, max_depth := max_depth,
                seed := randomState.getD entropy, trainX := X, trainY := y }

/-- Embeds `sklearn.metrics.roc_auc_score`: the Mann-Whitney statistic (fraction
of positive/negative pairs ranked correctly, ties counting one half);
raises a `ValueError` when only one class is present in `y_true`. -/
def roc_auc_score (ytrue : List Nat) (yscore : List ℚ) : Except String ℚ :=
  let pts := ytrue.zip yscore
  let pos := pts.filter (fun p => p.1 == 1)
  let neg := pts.filter (fun p => p.1 != 1)
  if pos.length = 0 ∨ neg.length = 0 then
    Except.error "Only one class present in y_true. ROC AUC score is not defined in that case."
  else
    Except.ok (((pos.map (fun p =>
      ((neg.map (fun q =>
        if q.2 < p.2 then (1 : ℚ) else if p.2 = q.2 then (1 : ℚ) / 2 else 0)).sum))).sum)
      / ((pos.length : ℚ) * (neg.length : ℚ)))

/-- The bundle the train step stores on `self` (lines 117-129 and 155-165):
the spec's `ModelArtifact`. -/
structure ModelArtifact where
  model : GBCModel
  encoders : String → LabelEncoder
  cols : List String
  auc_score : ℚ
  feature_importances : List (String × ℚ)
  feature_value_stats : List (String × List FeatureValueStat)

/-- Embeds `WildfireFlow.train` (lines 39-174), from the SQL filter to the stored
artifact: filter out `Inaccessible` damage, derive the target, fit one
`LabelEncoder` per column over the filled column values, encode the
feature matrix, stratified-split it 80/20 with `random_state=42`, fit the
classifier with `random_state=42`, score the AUC on the test side, and
assemble importances and the per-feature destruction statistics (computed
from the identically filtered raw query, `df_orig`).  Any uncaught
`ValueError` of a library call aborts the step with no artifact.
The per-column encoders (`trainEncoders`, lines 95-99) and the encoded
matrix (`encodedMatrix`, the `fit_transform` loop plus `X = df[feature_cols]`
of lines 96-101) are named separately just below. -/
def trainEncoders (df : List Record) : String → LabelEncoder :=
  fun col => LabelEncoder.fit (colValues df col)

/-- See the comment above: each matrix row holds, per column in the fixed
order, the fitted code of that record's filled raw value. -/
def encodedMatrix (df : List Record) : List (List Nat) :=
  df.map (fun r => feature_cols.map
    (fun col => (trainEncoders df col).classes.indexOf (fillna (r.getFeature col))))

/-- Embeds `WildfireFlow.train`, assembled from the pieces above; see the comment
on `trainEncoders`. -/
def trainStep (entropy : Nat) (rows : List Record) : Except String ModelArtifact :=
  let df := selectRecords rows
  let y := df.map target01
  let encoders := trainEncoders df
  let X := encodedMatrix df
  match train_test_split X y ((1 : ℚ) / 5) (some 42) entropy with
  | Except.error e => Except.error e
  | Except.ok (X_train, X_test, y_train, y_test) =>
    match GradientBoostingClassifier_fit 100 5 (some 42) entropy X_train y_train with
    | Except.error e => Except.error e
    | Except.ok model =>
      match roc_auc_score y_test (X_test.map model.predictProba1) with
      | Except.error e => Except.error e
      | Except.ok auc =>
        let df_orig := selectRecords rows
        Except.ok
          { model := model
            encoders := encoders
            cols := feature_cols
            auc_score := auc
            feature_importances :=
              feature_cols.zip (model.featureImportances feature_cols.length)
            feature_value_stats :=
              feature_cols.map (fun col => (col, groupStats df_orig col)) }

theorem perm_insertSorted (s : String) (l : List String) :
    (insertSorted s l).Perm (s :: l) := by
  induction l with
  | nil => simp [insertSorted]
  | cons t ts ih =>
    simp only [insertSorted]
    split
    · exact List.Perm.refl _
    · exact (ih.cons t).trans (List.Perm.swap s t ts)

theorem perm_sortStrings (l : List String) : (sortStrings l).Perm l := by
  induction l with
  | nil => simp [sortStrings]
  | cons s ss ih =>
    exact (perm_insertSorted s (sortStrings ss)).trans (ih.cons s)

theorem mem_npUnique {a : String} {vs : List String} : a ∈ npUnique vs ↔ a ∈ vs := by
  unfold npUnique
  rw [(perm_sortStrings vs.dedup).mem_iff, List.mem_dedup]

theorem nodup_npUnique (vs : List String) : (npUnique vs).Nodup :=
  ((perm_sortStrings vs.dedup).nodup_iff).mpr (List.nodup_dedup vs)

theorem length_npUnique (vs : List String) : (npUnique vs).length = vs.dedup.length :=
  (perm_sortStrings vs.dedup).length_eq

/-- C1: an encoder fitted on a non-empty value list, asked to encode a
value not seen at fit time, returns the code assigned to `"Unknown"` when
`"Unknown"` is in the fitted vocabulary, and `0` otherwise; `encode_feature`
is a total function, so no error can escape in either case. -/
theorem encode_feature_unseen_fallback (values : List String) (v feature_name : String)
    (hne : values ≠ []) (hv : v ∉ values) :
    ("Unknown" ∈ values →
      (LabelEncoder.fit values).transformOne "Unknown" =
        Except.ok (encode_feature v (LabelEncoder.fit values) feature_name)) ∧
    ("Unknown" ∉ values →
      encode_feature v (LabelEncoder.fit values) feature_name = 0) := by
  have hvc : v ∉ (LabelEncoder.fit values).classes := by
    simpa [LabelEncoder.fit, mem_npUnique] using hv
  constructor
  · intro hu
    have huc : "Unknown" ∈ (LabelEncoder.fit values).classes := by
      simpa [LabelEncoder.fit, mem_npUnique] using hu
    simp [encode_feature, LabelEncoder.transformOne, hvc, huc]
  · intro hu
    have huc : "Unknown" ∉ (LabelEncoder.fit values).classes := by
      simpa [LabelEncoder.fit, mem_npUnique] using hu
    simp [encode_feature, LabelEncoder.transformOne, hvc, huc]

/-- Witness for C1, the spec's concrete scenario 1: fitting on
`["Wood","Metal","Wood","Unknown"]` and encoding the unseen `"Tile"`
yields the code assigned to `"Unknown"`. -/
theorem encode_feature_unseen_fallback_witness :
    (LabelEncoder.fit ["Wood", "Metal", "Wood", "Unknown"]).transformOne "Unknown" =
      Except.ok (encode_feature "Tile"
        (LabelEncoder.fit ["Wood", "Metal", "Wood", "Unknown"]) "roof_construction") :=
  (encode_feature_unseen_fallback ["Wood", "Metal", "Wood", "Unknown"] "Tile"
    "roof_construction" (by decide) (by decide)).1 (by decide)

/-- C5: the encoder fitted in the train step on a filled column (missing
values already replaced by `"Unknown"` via `colValues`) encodes the fitted
values injectively onto the dense range `[0, k-1]`, `k` the number of
distinct fitted values: encoding a fitted value succeeds with its index in
the vocabulary, every code is below `k`, distinct fitted values get
distinct codes, and every code below `k` is the code of some fitted
value. -/
theorem fit_encode_dense_injective (df : List Record) (col : String) :
    (∀ v ∈ colValues df col,
      (LabelEncoder.fit (colValues df col)).transformOne v =
        Except.ok ((LabelEncoder.fit (colValues df col)).classes.indexOf v)) ∧
    (∀ v ∈ colValues df col,
      (LabelEncoder.fit (colValues df col)).classes.indexOf v <
        (colValues df col).dedup.length) ∧
    (∀ v ∈ colValues df col, ∀ w ∈ colValues df col,
      (LabelEncoder.fit (colValues df col)).classes.indexOf v =
        (LabelEncoder.fit (colValues df col)).classes.indexOf w → v = w) ∧
    (∀ i, i < (colValues df col).dedup.length →
      ∃ v ∈ colValues df col,
        (LabelEncoder.fit (colValues df col)).classes.indexOf v = i) := by
  set vs := colValues df col with hvs
  have hmem : ∀ {v : String}, v ∈ vs → v ∈ (LabelEncoder.fit vs).classes := by
    intro v h
    simpa [LabelEncoder.fit, mem_npUnique] using h
  have hlen : (LabelEncoder.fit vs).classes.length = vs.dedup.length := by
    simpa [LabelEncoder.fit] using length_npUnique vs
  refine ⟨?_, ?_, ?_, ?_⟩
  · intro v hv
    simp [LabelEncoder.transformOne, hmem hv]
  · intro v hv
    have := List.indexOf_lt_length.mpr (hmem hv)
    omega
  · intro v hv w hw h
    exact (List.indexOf_inj (hmem hv) (hmem hw)).mp h
  · intro i hi
    have hi' : i < (LabelEncoder.fit vs).classes.length := by omega
    refine ⟨(LabelEncoder.fit vs).classes.get ⟨i, hi'⟩, ?_, ?_⟩
    · exact mem_npUnique.mp (List.get_mem _ _ _)
    · have hnd : (LabelEncoder.fit vs).classes.Nodup := nodup_npUnique vs
      simpa [List.get_eq_getElem] using List.indexOf_getElem hnd i hi'

/-- Witness for C5 on a concrete two-record column: both fitted values are
encoded, codes are below `k = 2`, and code `0` is attained. -/
theorem fit_encode_dense_injective_witness :
    ∃ v ∈ colValues
      [{ damage := "Destroyed (>50%)", structure_type := none, structure_category := none,
         roof_construction := some "Wood", eaves := none, vent_screen := none,
         exterior_siding := none, window_pane := none, deck_on_grade := none,
         deck_elevated := none, patio_cover := none, fence_attached := none,
         county := none },
       { damage := "No Damage", structure_type := none, structure_category := none,
         roof_construction := some "Metal", eaves := none, vent_screen := none,
         exterior_siding := none, window_pane := none, deck_on_grade := none,
         deck_elevated := none, patio_cover := none, fence_attached := none,
         county := none }] "roof_construction",
      (LabelEncoder.fit (colValues
      [{ damage := "Destroyed (>50%)", structure_type := none, structure_category := none,
         roof_construction := some "Wood", eaves := none, vent_screen := none,
         exterior_siding := none, window_pane := none, deck_on_grade := none,
         deck_elevated := none, patio_cover := none, fence_attached := none,
         county := none },
       { damage := "No Damage", structure_type := none, structure_category := none,
         roof_construction := some "Metal", eaves := none, vent_screen := none,
         exterior_siding := none, window_pane := none, deck_on_grade := none,
         deck_elevated := none, patio_cover := none, fence_attached := none,
         county := none }] "roof_construction")).classes.indexOf v = 0 :=
  (fit_encode_dense_injective _ "roof_construction").2.2.2 0 (by decide)

/-- C2: the vector built by `predict_destruction` has one entry per fixed
feature column; its `i`-th entry is the encoding of the `i`-th column's
looked-up value; and a column absent from the feature mapping is looked up
as the literal `"Unknown"`, so it is encoded exactly as if its raw value
were `"Unknown"`. -/
theorem encoded_features_spec (encoders : String → LabelEncoder)
    (cols : List String) (features : List (String × String)) :
    (encoded_features encoders cols features).length = cols.length ∧
    (∀ i : Fin cols.length,
      (encoded_features encoders cols features).getD i.1 0 =
        encode_feature (dictGet features (cols.get i) "Unknown")
          (encoders (cols.get i)) (cols.get i)) ∧
    (∀ col, features.find? (fun p => p.1 == col) = none →
      dictGet features col "Unknown" = "Unknown") := by
  refine ⟨by simp [encoded_features], ?_, ?_⟩
  · intro i
    simp [encoded_features, List.getD_eq_getElem?_getD, List.getElem?_map,
      List.getElem?_eq_getElem i.2]
  · intro col h
    simp [dictGet, h]

/-- Witness for C2 at the empty feature mapping (one missing every
column): the built vector still has exactly one entry per fixed column. -/
theorem encoded_features_spec_witness :
    (encoded_features (fun _ => LabelEncoder.fit ["Unknown", "Wood"]) feature_cols []).length =
      feature_cols.length :=
  (encoded_features_spec (fun _ => LabelEncoder.fit ["Unknown", "Wood"]) feature_cols []).1

/-- A sample record for concrete witnesses: the given damage label and
roof construction, every other feature cell missing. -/
def mkRecord (damage : String) (roof : Option String) : Record :=
  { damage := damage, structure_type := none, structure_category := none,
    roof_construction := roof, eaves := none, vent_screen := none,
    exterior_siding := none, window_pane := none, deck_on_grade := none,
    deck_elevated := none, patio_cover := none, fence_attached := none,
    county := none }

/-- C4: every record of the population selected for training and for the
destruction statistics (both queries filter with
`WHERE "* Damage" != 'Inaccessible'`) has a damage label other than
`"Inaccessible"`. -/
theorem selectRecords_no_inaccessible (rows : List Record) (r : Record)
    (h : r ∈ selectRecords rows) : r.damage ≠ "Inaccessible" := by
  have hp := List.of_mem_filter h
  simpa using hp

/-- Witness for C4: a concrete accessible record survives the filter and
its damage label is not `"Inaccessible"`. -/
theorem selectRecords_no_inaccessible_witness :
    (mkRecord "No Damage" none).damage ≠ "Inaccessible" :=
  selectRecords_no_inaccessible [mkRecord "No Damage" none] (mkRecord "No Damage" none)
    (by decide)

/-- C8: the derived target is `1` exactly when the record's damage label
equals `"Destroyed (>50%)"`, and `0` exactly otherwise. -/
theorem target_iff_destroyed (r : Record) :
    (target01 r = 1 ↔ r.damage = "Destroyed (>50%)") ∧
    (target01 r = 0 ↔ r.damage ≠ "Destroyed (>50%)") := by
  unfold target01
  by_cases h : r.damage = "Destroyed (>50%)" <;> simp [h]

/-- Witness for C8: a destroyed record gets target `1`. -/
theorem target_iff_destroyed_witness :
    target01 (mkRecord "Destroyed (>50%)" none) = 1 :=
  (target_iff_destroyed (mkRecord "Destroyed (>50%)" none)).1.mpr rfl

/-- C9: scoring is idempotent and pure: a `predict` call leaves the
service state unchanged, and a second call on the resulting state with the
same feature mapping returns the same probability, so no call depends on
prior calls. -/
theorem predict_idempotent_pure (s : InferenceService)
    (features : List (String × String)) :
    (s.predict features).2 = s ∧
    (((s.predict features).2).predict features).1 = (s.predict features).1 := by
  exact ⟨rfl, rfl⟩

/-- C10: the returned probability depends only on the bindings of the
fixed feature columns: two feature mappings whose lookups agree on every
column of the fixed order (equal value, or absent in both) score
identically, whatever extra keys either carries. -/
theorem predict_depends_only_on_cols (model : List Nat → ℚ)
    (encoders : String → LabelEncoder) (cols : List String)
    (f1 f2 : List (String × String))
    (h : ∀ col ∈ cols,
      f1.find? (fun p => p.1 == col) = f2.find? (fun p => p.1 == col)) :
    predict_destruction model encoders cols f1 =
      predict_destruction model encoders cols f2 := by
  unfold predict_destruction encoded_features
  congr 1
  apply List.map_congr_left
  intro col hc
  simp [dictGet, h col hc]

/-- Witness for C10: the same county binding plus different extra keys
yield the same probability under a concrete model and encoders. -/
theorem predict_depends_only_on_cols_witness :
    predict_destruction (fun v => (v.sum : ℚ))
      (fun _ => LabelEncoder.fit ["Unknown", "Wood"]) feature_cols
      [("county", "Los Angeles"), ("extra_key", "x")] =
    predict_destruction (fun v => (v.sum : ℚ))
      (fun _ => LabelEncoder.fit ["Unknown", "Wood"]) feature_cols
      [("county", "Los Angeles"), ("another_key", "y")] :=
  predict_depends_only_on_cols _ _ feature_cols _ _ (by decide)

theorem splitByAlloc_snd_mem (alloc : List (Nat × Nat)) (l : List (List Nat × Nat))
    (p : List Nat × Nat) (hp : p ∈ (splitByAlloc alloc l).2) : p ∈ l := by
  induction l generalizing alloc with
  | nil => simpa [splitByAlloc] using hp
  | cons q rest ih =>
    by_cases h : 0 < allocGet alloc q.2
    · simp only [splitByAlloc, if_pos h] at hp
      exact List.mem_cons_of_mem _ (ih _ hp)
    · simp only [splitByAlloc, if_neg h] at hp
      rcases List.mem_cons.mp hp with h1 | h1
      · exact h1 ▸ List.mem_cons_self _ _
      · exact List.mem_cons_of_mem _ (ih _ h1)

theorem train_test_split_y_train_sub (X : List (List Nat)) (y : List Nat)
    (t : ℚ) (rs : Option Nat) (ent : Nat)
    (Xtr Xte : List (List Nat)) (ytr yte : List Nat)
    (h : train_test_split X y t rs ent = Except.ok (Xtr, Xte, ytr, yte)) :
    ∀ a ∈ ytr, a ∈ y := by
  simp only [train_test_split] at h
  split at h
  · exact absurd h (by simp)
  · split at h
    · exact absurd h (by simp)
    · split at h
      · exact absurd h (by simp)
      · split at h
        · exact absurd h (by simp)
        · simp only [Except.ok.injEq, Prod.mk.injEq] at h
          obtain ⟨-, -, hytr, -⟩ := h
          intro a ha
          rw [← hytr] at ha
          rw [List.mem_map] at ha
          obtain ⟨p, hp, rfl⟩ := ha
          have hp1 : p ∈ ((X.zip y).rotate ((rs.getD ent) % y.length)).reverse :=
            splitByAlloc_snd_mem _ _ _ hp
          rw [List.mem_reverse, List.mem_rotate] at hp1
          exact (List.of_mem_zip (show (p.1, p.2) ∈ X.zip y from hp1)).2

theorem dedup_length_le_of_subset {l m : List Nat} (h : ∀ a ∈ l, a ∈ m) :
    l.dedup.length ≤ m.dedup.length := by
  rw [← List.card_toFinset, ← List.card_toFinset]
  apply Finset.card_le_card
  intro a ha
  rw [List.mem_toFinset] at ha ⊢
  exact h a ha

/-- C3: when the filtered training records carry fewer than two distinct
target classes, the train step reports the failure as an explicit error —
the classifier-fit (or split) precondition named in the error message —
and returns no `ModelArtifact`. -/
theorem trainStep_single_class_fails (entropy : Nat) (rows : List Record)
    (h : ((selectRecords rows).map target01).dedup.length < 2) :
    ∃ msg, trainStep entropy rows = Except.error msg := by
  simp only [trainStep]
  cases hsplit : train_test_split (encodedMatrix (selectRecords rows))
      ((selectRecords rows).map target01) ((1 : ℚ) / 5) (some 42) entropy with
  | error e => exact ⟨e, rfl⟩
  | ok t =>
    obtain ⟨Xtr, Xte, ytr, yte⟩ := t
    have hsub : ∀ a ∈ ytr, a ∈ (selectRecords rows).map target01 :=
      train_test_split_y_train_sub _ _ _ _ _ _ _ _ _ hsplit
    have hlt : ytr.dedup.length < 2 :=
      lt_of_le_of_lt (dedup_length_le_of_subset hsub) h
    refine ⟨"y contains 1 class after sample_weight trimmed classes with zero weights, while a minimum of 2 classes are required.", ?_⟩
    simp only [GradientBoostingClassifier_fit, if_pos hlt]

/-- Witness for C3, the spec's concrete scenario 3: two records, both with
target class `1`, make the train step fail with an error and no
artifact. -/
theorem trainStep_single_class_fails_witness :
    ∃ msg, trainStep 0 [mkRecord "Destroyed (>50%)" none,
      mkRecord "Destroyed (>50%)" (some "Wood")] = Except.error msg :=
  trainStep_single_class_fails 0 _ (by decide)

/-- C7: the train step is deterministic given its fixed seed: the ambient
process randomness (threaded as `entropy`, and consulted by the split and
the classifier only when `random_state` is `None`) never influences the
result, because both calls pass `random_state=42`.  Two runs on identical
input data hence return identical artifacts — in particular identical AUC
scores and identical feature-importance values — from the stratified
80/20 split (`test_size=0.2`, `stratify=y`) and seeded classifier the
definition of `trainStep` fixes. -/
theorem trainStep_deterministic (e1 e2 : Nat) (rows : List Record) :
    trainStep e1 rows = trainStep e2 rows := rfl

/-- C6: every per-feature statistic the aggregation emits has a sample
count of at least 20 (smaller groups are dropped entirely by the
`count >= 20` filter), and its destruction rate — the mean of the 0/1
target over the records sharing that raw value — lies in `[0, 1]`. -/
theorem groupStats_count_rate (df : List Record) (col : String)
    (s : FeatureValueStat) (hs : s ∈ groupStats df col) :
    20 ≤ s.count ∧ 0 ≤ s.destruction_rate ∧ s.destruction_rate ≤ 1 := by
  simp only [groupStats, List.mem_filter] at hs
  obtain ⟨hmem, hcount⟩ := hs
  have hc : 20 ≤ s.count := by simpa using hcount
  rw [List.mem_map] at hmem
  obtain ⟨v, hv, rfl⟩ := hmem
  refine ⟨hc, ?_, ?_⟩
  · exact div_nonneg (by positivity) (by positivity)
  · have hb : ((df.filter (fun r => r.getFeature col == some v)).map target01).sum ≤
        (df.filter (fun r => r.getFeature col == some v)).length := by
      have h1 := List.sum_le_card_nsmul
        ((df.filter (fun r => r.getFeature col == some v)).map target01) 1 ?_
      · simpa using h1
      · intro x hx
        rw [List.mem_map] at hx
        obtain ⟨r, -, rfl⟩ := hx
        unfold target01
        split <;> omega
    have hlen : 0 < (df.filter (fun r => r.getFeature col == some v)).length := by
      simp only at hc
      omega
    rw [div_le_one (by exact_mod_cast hlen)]
    exact_mod_cast hb

/-- Witness for C6: twenty identical destroyed wood-roof records produce
the single stat `(value "Wood", rate 1, count 20)`, which satisfies the
bounds. -/
theorem groupStats_count_rate_witness :
    20 ≤ (FeatureValueStat.mk "Wood" 1 20).count ∧
    0 ≤ (FeatureValueStat.mk "Wood" 1 20).destruction_rate ∧
    (FeatureValueStat.mk "Wood" 1 20).destruction_rate ≤ 1 :=
  groupStats_count_rate
    (List.replicate 20 (mkRecord "Destroyed (>50%)" (some "Wood")))
    "roof_construction" (FeatureValueStat.mk "Wood" 1 20) (by
      have h : groupStats
          (List.replicate 20 (mkRecord "Destroyed (>50%)" (some "Wood")))
          "roof_construction" = [FeatureValueStat.mk "Wood" 1 20] := by
        norm_num [groupStats, npUnique, sortStrings, insertSorted, mkRecord,
          Record.getFeature, target01, List.replicate]
      rw [h]
      exact List.mem_singleton_self _)
